import Mathlib

/-!
Verification of the railway ticket resale marketplace (src/app.py, src/models.py)
against its natural-language specification.

The repository is a Flask application; this file is a shallow embedding of the
database-backed state machine that the spec calls the ticket lifecycle and
settlement state machine.  The five persisted relations of models.py become
lists of Lean structures, and each route handler that the claims mention
becomes a pure state transformer returning the new database state together
with an outcome drawn from the error taxonomy of the spec.

Modelling conventions, each justified by the source:
* SQLAlchemy `Float` columns (prices, balances, amounts) are modelled as Lean
  rationals; Python `int(x)` truncation toward zero is `pyInt`.
* `Date` columns are modelled as integer day ordinals; `strptime` parsing is
  abstracted as the `Option` it produces.
* `Query.filter_by(...).first()` is `List.find?`; insertion order of the lists
  models `created_at` ordering (SQLAlchemy assigns increasing timestamps).
* `db.session.commit()` either succeeds or fails on the single uniqueness
  constraint in models.py (`sold_tickets.pnr_number`, models.py line 9); a
  failed commit rolls the session back to the previous commit point, which is
  exactly how the generic `except` blocks of app.py behave.
* The Stripe collaborator is modelled as an always-successful session store
  carried alongside the database: `create_session` appends a session record
  and `retrieve` is a lookup, matching section 6 of the spec which treats the
  gateway as an opaque collaborator whose metadata is trusted.
* Python regular expression `re.match` with pattern `^\d{10}$` matches ten
  ASCII digits optionally followed by a single trailing newline, because `$`
  also matches just before a final newline; `\d` is modelled as ASCII digits.
* Flash-message outcomes are classified by the error taxonomy of spec
  section 7: the messages flashed with category danger or warning map to
  ValidationError / NotFound / PreconditionFailed / Conflict /
  FinalizationError exactly as the taxonomy describes them.
-/

namespace RailwayTicket

/-- Payment status values written by app.py into `Ticket.payment_status`. -/
inductive PaymentStatus where
  | pending
  | completed
  | cancelled
  deriving DecidableEq, Repr

/-- Outcome of one route handler, classified by the error taxonomy of the
spec (section 7).  `ok` is a successful render or redirect, `paymentRedirect`
is the redirect to the payment page that release confirmation performs,
`warning` is a flashed warning that rejects the action without mutating
state, and `verifyError` is the outer catch of the finalizer (failure to
retrieve the external session). -/
inductive Res where
  | ok
  | paymentRedirect
  | validationError (msg : String)
  | warning (msg : String)
  | notFound
  | preconditionFailed
  | conflict
  | finalizationError
  | verifyError
  deriving DecidableEq, Repr

/-- Row of the `tickets` relation (models.py, class Ticket). -/
structure TicketR where
  id : Nat
  title : String
  price : ℚ
  description : String
  filename : String
  pnr_number : String
  from_location : String
  to_location : String
  travel_date : Int
  train_number : String
  passenger_name : String
  seller_id : Option Int
  is_expired : Bool
  stripe_checkout_id : Option String
  payment_status : Option PaymentStatus
  buyer_email : Option String
  deriving DecidableEq, Repr

/-- Row of the `sold_tickets` relation (models.py, class SoldTicket).
The column `pnr_number` carries a uniqueness constraint in the schema. -/
structure SoldTicketR where
  pnr_number : String
  from_location : String
  to_location : String
  travel_date : Int
  train_number : String
  buyer_email : Option String
  payment_id : Option String
  seller_id : Option Int
  from_ticket_id : Option Nat
  deriving DecidableEq, Repr

/-- Row of the `messages` relation (models.py, class Message).  List position
models `created_at` order. -/
structure MessageR where
  ticket_id : Nat
  sender_type : String
  message_text : String
  is_ticket_shared : Bool
  deriving DecidableEq, Repr

/-- Row of the `seller_wallets` relation (models.py, class SellerWallet). -/
structure WalletR where
  id : Nat
  seller_id : Int
  balance : ℚ
  currency : String
  deriving DecidableEq, Repr

/-- Row of the `wallet_transactions` relation (models.py,
class WalletTransaction). -/
structure TxR where
  wallet_id : Nat
  amount : ℚ
  transaction_type : String
  description : String
  payment_id : Option String
  deriving DecidableEq, Repr

/-- A Stripe checkout session as created by `process_payment`: the external
collaborator state that `view_purchased_ticket` later retrieves.  The
`metadata` dictionary of app.py lines 389 to 393 is flattened into the
`ticket_id`, `pnr_number` and `buyer_email` fields, and the payment intent
that Stripe attaches to a paid session is the `payment_intent` field. -/
structure StripeSession where
  id : String
  payment_intent : String
  unit_amount : Int
  ticket_id : Nat
  pnr_number : String
  buyer_email : String
  deriving DecidableEq, Repr

/-- The persisted state: the five relations of models.py plus the external
session store, and the id counters the database assigns. -/
structure DB where
  tickets : List TicketR
  sold_tickets : List SoldTicketR
  messages : List MessageR
  wallets : List WalletR
  transactions : List TxR
  sessions : List StripeSession
  nextTicketId : Nat
  nextWalletId : Nat
  deriving DecidableEq, Repr

/-- Python expression `x or 1` applied to the optional integer column
`ticket.seller_id` (app.py lines 483 and 485): both `None` and `0` are falsy
in Python, so both fall back to the placeholder seller 1. -/
def orOne : Option Int → Int
  | none => 1
  | some s => if s = 0 then 1 else s

/-- Python `int(q)`: truncation toward zero. -/
def pyInt (q : ℚ) : Int :=
  if 0 ≤ q then ⌊q⌋ else ⌈q⌉

/-- Every character of the string is an ASCII digit. -/
def allDigits (s : String) : Bool :=
  s.data.all (fun c => c.isDigit)

/-- Python `re.match` of the raw pattern `^\d{10}$` (app.py line 38): it
accepts exactly ten digits, and also ten digits followed by one trailing
newline, because in Python the dollar anchor matches just before a final
newline as well as at the end of the string. -/
def pnrPatternMatch (s : String) : Bool :=
  (s.length = 10 && allDigits s) ||
  (s.length = 11 && s.data.getLast? == some '\n' && allDigits (String.mk (s.data.take 10)))

/-- A sold-ticket row with this PNR exists
(`SoldTicket.query.filter_by(pnr_number=...).first()` is not None). -/
def soldPnrExists (st : DB) (pnr : String) : Bool :=
  st.sold_tickets.any (fun r => r.pnr_number == pnr)

/-- validate_pnr from app.py lines 32 to 46: format check, then lookup in the
sold-tickets relation.  Returns the pair (is_valid, error_message). -/
def validate_pnr (st : DB) (pnr : String) : Bool × String :=
  if !pnrPatternMatch pnr then
    (false, "PNR must be exactly 10 digits")
  else if soldPnrExists st pnr then
    (false, "This ticket has already been sold and cannot be resold")
  else
    (true, "")

/-- One ticket row as transformed by the expiry sweep: marked expired when
its travel date is strictly before today and it is not yet expired. -/
def expireOne (today : Int) (t : TicketR) : TicketR :=
  if t.travel_date < today && !t.is_expired then { t with is_expired := true } else t

/-- check_expired_tickets from app.py lines 48 to 65: select every
non-expired ticket whose travel date is before today, mark each expired, and
commit the batch as one transaction. -/
def check_expired_tickets (today : Int) (st : DB) : DB :=
  { st with tickets := st.tickets.map (expireOne today) }

/-- Extensions accepted by allowed_file (app.py line 26). -/
def ALLOWED_EXTENSIONS : List String :=
  ["pdf", "jpg", "jpeg", "png", "svg", "gif"]

/-- Python str.strip of a form value: leading and trailing whitespace
removed. -/
def pyStrip (s : String) : String :=
  String.mk ((s.data.dropWhile Char.isWhitespace).reverse.dropWhile Char.isWhitespace).reverse

/-- The filename contains a dot (the membership test of allowed_file). -/
def fileHasDot (filename : String) : Bool :=
  filename.data.any (fun c => c == '.')

/-- Lowercased text after the last dot of the filename, modelling the
Python expression that splits the name once from the right at a dot and
lowercases the extension. -/
def fileExt (filename : String) : String :=
  String.mk ((filename.data.reverse.takeWhile (fun c => !(c == '.'))).reverse.map Char.toLower)

/-- allowed_file from app.py lines 28 to 30. -/
def allowed_file (filename : String) : Bool :=
  fileHasDot filename && ALLOWED_EXTENSIONS.contains (fileExt filename)

/-- The multipart form submitted to the upload route.  String fields model
the raw form values (a missing field reads as the empty string through
`request.form.get(key, rdefault)` and through the membership checks, which
treat a missing key and a blank value alike).  The two parser outcomes the
handler observes are carried as options: `priceVal` is the result of
`float(price)` (`none` when the conversion raises) and `travelDateParsed`
is the result of `strptime` on the travel date string (`none` on failure),
with dates as integer day ordinals. -/
structure UploadForm where
  title : String
  priceStr : String
  priceVal : Option ℚ
  filePresent : Bool
  fileName : String
  description : String
  from_location : String
  to_location : String
  travel_date_str : String
  travelDateParsed : Option Int
  train_number : String
  passenger_name : String
  pnr_number : String
  deriving DecidableEq, Repr

/-- The ticket row persisted by a successful upload (app.py lines 190 to
202): fresh id, non-expired, no payment state. -/
def newTicket (st : DB) (f : UploadForm) (price : ℚ) (d : Int) : TicketR :=
  { id := st.nextTicketId
    title := f.title
    price := price
    description := f.description
    filename := f.fileName
    pnr_number := f.pnr_number
    from_location := f.from_location
    to_location := f.to_location
    travel_date := d
    train_number := f.train_number
    passenger_name := f.passenger_name
    seller_id := none
    is_expired := false
    stripe_checkout_id := none
    payment_status := none
    buyer_email := none }

/-- upload_ticket POST handler from app.py lines 100 to 216, with the checks
in source order: title, price blank, price parse and positivity, file part,
file selected, the six required train fields, PNR validation, travel date
parse, allowed extension; only then is the row inserted and committed. -/
def upload_ticket (st : DB) (f : UploadForm) : DB × Res :=
  if pyStrip f.title = "" then (st, Res.validationError "Please provide a ticket title")
  else if pyStrip f.priceStr = "" then (st, Res.validationError "Please provide a ticket price")
  else
    match f.priceVal with
    | none => (st, Res.validationError "Price must be a valid number")
    | some price =>
      if price ≤ 0 then (st, Res.validationError "Price must be greater than zero")
      else if !f.filePresent then (st, Res.validationError "No file part")
      else if f.fileName = "" then (st, Res.validationError "No image selected for uploading")
      else if f.from_location = "" then (st, Res.validationError "Please provide origin location")
      else if f.to_location = "" then (st, Res.validationError "Please provide destination location")
      else if f.travel_date_str = "" then (st, Res.validationError "Please provide travel date")
      else if f.train_number = "" then (st, Res.validationError "Please provide train number")
      else if f.passenger_name = "" then (st, Res.validationError "Please provide passenger name")
      else if f.pnr_number = "" then (st, Res.validationError "Please provide the PNR number")
      else if !(validate_pnr st f.pnr_number).1 then
        (st, Res.validationError (validate_pnr st f.pnr_number).2)
      else
        match f.travelDateParsed with
        | none => (st, Res.validationError "Invalid travel date format. Please use YYYY-MM-DD format")
        | some d =>
          if allowed_file f.fileName then
            ({ st with
                tickets := st.tickets ++ [newTicket st f price d]
                nextTicketId := st.nextTicketId + 1 },
             Res.ok)
          else
            (st, Res.validationError "Allowed image types are: png, jpg, jpeg, gif")

/-- Text of the release-request control message (app.py line 267). -/
def releaseRequestText : String :=
  "[SYSTEM] Buyer has requested the ticket to be released."

/-- The release-request message row inserted by request_release. -/
def releaseReqMsg (tid : Nat) : MessageR :=
  { ticket_id := tid
    sender_type := "buyer"
    message_text := releaseRequestText
    is_ticket_shared := false }

/-- A buyer release-request message for this ticket already exists
(the duplicate check of app.py lines 264 to 268). -/
def releaseReqExists (st : DB) (tid : Nat) : Bool :=
  st.messages.any (fun m =>
    m.ticket_id == tid && m.sender_type == "buyer" && m.message_text == releaseRequestText)

/-- The ticket row with this id exists. -/
def ticketExists (st : DB) (tid : Nat) : Bool :=
  st.tickets.any (fun t => t.id == tid)

/-- request_release from app.py lines 258 to 292: absent ticket flashes not
found; a pre-existing buyer release-request flashes a duplicate warning and
inserts nothing; otherwise the release-request control message is inserted
and committed. -/
def request_release (st : DB) (tid : Nat) : DB × Res :=
  if ticketExists st tid then
    if releaseReqExists st tid then
      (st, Res.warning "You have already requested this ticket to be released. Please wait for the seller to confirm.")
    else
      ({ st with messages := st.messages ++ [releaseReqMsg tid] }, Res.ok)
  else
    (st, Res.notFound)

/-- A seller message with the shared flag set exists for this ticket
(the gate of app.py lines 300 to 304). -/
def sharedExists (st : DB) (tid : Nat) : Bool :=
  st.messages.any (fun m =>
    m.ticket_id == tid && m.sender_type == "seller" && m.is_ticket_shared)

/-- The release-confirmation message row inserted by release_ticket
(app.py lines 311 to 316). -/
def confirmMsg (tid : Nat) : MessageR :=
  { ticket_id := tid
    sender_type := "seller"
    message_text := "[SYSTEM] Seller has confirmed the ticket transfer."
    is_ticket_shared := false }

/-- release_ticket from app.py lines 294 to 331, the confirm_release
operation of the spec: without a prior seller share-confirmation it flashes
a warning and inserts nothing (PreconditionFailed); with one it inserts the
release-confirmation message and redirects to the payment page, which is
what unlocks payment initiation. -/
def release_ticket (st : DB) (tid : Nat) : DB × Res :=
  if ticketExists st tid then
    if sharedExists st tid then
      ({ st with messages := st.messages ++ [confirmMsg tid] }, Res.paymentRedirect)
    else
      (st, Res.preconditionFailed)
  else
    (st, Res.notFound)

/-- payment_page from app.py lines 333 to 351: not found for an absent
ticket, and the already-sold rejection (spec taxonomy Conflict) when a
sold-ticket row with the PNR of this ticket exists. -/
def payment_page (st : DB) (tid : Nat) : Res :=
  match st.tickets.find? (fun t => t.id == tid) with
  | none => Res.notFound
  | some t => if soldPnrExists st t.pnr_number then Res.conflict else Res.ok

/-- Settlement amount in the smallest currency unit, from app.py line 370:
`int(ticket.price * 110)`, the listed price plus ten percent commission
expressed in paise and truncated toward zero by the Python int conversion. -/
def sessionAmount (price : ℚ) : Int :=
  pyInt (price * 110)

/-- The checkout session created by process_payment.  The session and
payment-intent identifiers are opaque externally generated strings; the
model derives fresh ones from the session counter. -/
def newSession (st : DB) (t : TicketR) (email : String) : StripeSession :=
  { id := "cs_" ++ toString st.sessions.length
    payment_intent := "pi_" ++ toString st.sessions.length
    unit_amount := sessionAmount t.price
    ticket_id := t.id
    pnr_number := t.pnr_number
    buyer_email := email }

/-- process_payment from app.py lines 353 to 409: not found for an absent
ticket; a blank email is rejected; otherwise a checkout session for the
commission-inclusive amount is created at the gateway and the ticket row is
committed with the buyer email, the session reference and pending status. -/
def process_payment (st : DB) (tid : Nat) (email : String) : DB × Res :=
  match st.tickets.find? (fun t => t.id == tid) with
  | none => (st, Res.notFound)
  | some t =>
    if email = "" then
      (st, Res.validationError "Email is required for ticket delivery.")
    else
      ({ st with
          sessions := st.sessions ++ [newSession st t email]
          tickets := st.tickets.map (fun u =>
            if u.id == tid then
              { u with
                  buyer_email := some email
                  stripe_checkout_id := some (newSession st t email).id
                  payment_status := some PaymentStatus.pending }
            else u) },
       Res.ok)

/-- The initiate_payment operation of the spec (section 4.4): the buyer
loads the payment page, whose already-sold check rejects with Conflict
before any session is created, and then submits the form handled by
process_payment.  Modelled as that composition of app.py payment_page
(lines 333 to 351) and process_payment (lines 353 to 409). -/
def initiate_payment (st : DB) (tid : Nat) (email : String) : DB × Res :=
  match payment_page st tid with
  | Res.ok => process_payment st tid email
  | r => (st, r)

/-- Wallet lookup or lazy creation from app.py lines 482 to 487.  When the
wallet is absent the new zero-balance row is added and committed on its own,
before the settlement writes; the returned state is therefore already
persisted.  Also returns the wallet id used for the credit. -/
def getOrCreateWallet (st : DB) (sid : Int) : DB × Nat :=
  match st.wallets.find? (fun w => w.seller_id == sid) with
  | some w => (st, w.id)
  | none =>
    ({ st with
        wallets := st.wallets ++ [{ id := st.nextWalletId, seller_id := sid, balance := 0, currency := "INR" }]
        nextWalletId := st.nextWalletId + 1 },
     st.nextWalletId)

/-- The wallet credit of the finalizer (app.py line 508): add the seller
amount to the balance of the wallet row with this id. -/
def creditWallets (wid : Nat) (p : ℚ) (l : List WalletR) : List WalletR :=
  l.map (fun w => if w.id == wid then { w with balance := w.balance + p } else w)

/-- Mark the ticket row with this id as completed (app.py line 522). -/
def completeTicket (tid : Nat) (l : List TicketR) : List TicketR :=
  l.map (fun u => if u.id == tid then { u with payment_status := some PaymentStatus.completed } else u)

/-- The credit ledger entry of the finalizer (app.py lines 511 to 517). -/
def creditTx (t : TicketR) (sess : StripeSession) (wid : Nat) : TxR :=
  { wallet_id := wid
    amount := t.price
    transaction_type := "credit"
    description := "Payment for ticket " ++ toString t.id ++ ": " ++
      t.from_location ++ " to " ++ t.to_location
    payment_id := some sess.payment_intent }

/-- The sold-ticket row built by the finalizer (app.py lines 495 to 505). -/
def soldFromTicket (t : TicketR) (paymentIntent : String) : SoldTicketR :=
  { pnr_number := t.pnr_number
    from_location := t.from_location
    to_location := t.to_location
    travel_date := t.travel_date
    train_number := t.train_number
    buyer_email := t.buyer_email
    payment_id := some paymentIntent
    seller_id := t.seller_id
    from_ticket_id := some t.id }

/-- The settlement writes of the finalizer once session and ticket are
resolved (app.py lines 480 to 535).  After the separately committed wallet
lookup-or-creation, the wallet credit by the listed price, the credit
transaction, the sold-ticket insert and the completed status are staged and
committed as one transaction; that commit fails exactly when the uniqueness
constraint on `sold_tickets.pnr_number` is violated, in which case the
session rolls back to the previous commit point and the generic handler
flashes the contact-support error (spec taxonomy FinalizationError). -/
def finalizeCore (st : DB) (sess : StripeSession) (t : TicketR) : DB × Res :=
  let sid := orOne t.seller_id
  let st1 := (getOrCreateWallet st sid).1
  let wid := (getOrCreateWallet st sid).2
  if soldPnrExists st1 t.pnr_number then
    (st1, Res.finalizationError)
  else
    ({ st1 with
        wallets := creditWallets wid t.price st1.wallets
        sold_tickets := st1.sold_tickets ++ [soldFromTicket t sess.payment_intent]
        transactions := st1.transactions ++ [creditTx t sess wid]
        tickets := completeTicket t.id st1.tickets },
     Res.ok)

/-- view_purchased_ticket from app.py lines 464 to 540, the finalize
operation of the spec: retrieve the checkout session and its payment intent
(failure there is the outer catch), resolve the ticket from the session
metadata, then perform the settlement writes of finalizeCore. -/
def finalize (st : DB) (session_id : String) : DB × Res :=
  match st.sessions.find? (fun s => s.id == session_id) with
  | none => (st, Res.verifyError)
  | some sess =>
    match st.tickets.find? (fun t => t.id == sess.ticket_id) with
    | none => (st, Res.notFound)
    | some t => finalizeCore st sess t

/-- The ticket a finalize call for this session id operates on: the session
is retrieved and its metadata ticket id resolved, as in app.py lines 469
to 474. -/
def resolvedTicket (st : DB) (session_id : String) : Option TicketR :=
  match st.sessions.find? (fun s => s.id == session_id) with
  | none => none
  | some sess => st.tickets.find? (fun t => t.id == sess.ticket_id)

/-- Balance of the wallet of this seller, zero when no wallet row exists. -/
def walletBalanceD (st : DB) (sid : Int) : ℚ :=
  match st.wallets.find? (fun w => w.seller_id == sid) with
  | some w => w.balance
  | none => 0

/-- Run a sequence of finalize calls, threading the state. -/
def finalizeSeq (st : DB) : List String → DB
  | [] => st
  | s :: rest => finalizeSeq (finalize st s).1 rest

/-- Every finalize call in the sequence succeeds and the ticket it resolves
belongs to this seller (after the placeholder fallback of app.py). -/
def okSellerRun (st : DB) (sid : Int) : List String → Bool
  | [] => true
  | s :: rest =>
    match (finalize st s).2, resolvedTicket st s with
    | Res.ok, some t => (orOne t.seller_id == sid) && okSellerRun (finalize st s).1 sid rest
    | _, _ => false

/-- The listed prices of the tickets resolved along a run of finalize
calls. -/
def runPrices (st : DB) : List String → List ℚ
  | [] => []
  | s :: rest =>
    match resolvedTicket st s with
    | some t => t.price :: runPrices (finalize st s).1 rest
    | none => runPrices (finalize st s).1 rest

/-! Concrete states used by the counterexamples and witnesses below.  They
describe a listing with PNR 1234567890 priced at 500, its checkout session,
and the sold-ticket row a first successful finalize leaves behind. -/

/-- A listed ticket: PNR 1234567890, price 500, buyer email recorded. -/
def baseTicket : TicketR :=
  { id := 1, title := "T", price := 500, description := "", filename := "t.png",
    pnr_number := "1234567890", from_location := "A", to_location := "B",
    travel_date := 10, train_number := "12345", passenger_name := "P",
    seller_id := none, is_expired := false, stripe_checkout_id := none,
    payment_status := none, buyer_email := some "b@x.com" }

/-- The checkout session of baseTicket. -/
def baseSession : StripeSession :=
  { id := "cs_0", payment_intent := "pi_0", unit_amount := 55000,
    ticket_id := 1, pnr_number := "1234567890", buyer_email := "b@x.com" }

/-- The sold-ticket row a successful finalize of baseTicket records. -/
def soldRec : SoldTicketR :=
  { pnr_number := "1234567890", from_location := "A", to_location := "B",
    travel_date := 10, train_number := "12345", buyer_email := some "b@x.com",
    payment_id := some "pi_0", seller_id := none, from_ticket_id := some 1 }

/-- State after a completed sale of the PNR where the placeholder seller
wallet exists with balance 7: the input of a second finalize attempt. -/
def stC1 : DB :=
  { tickets := [baseTicket], sold_tickets := [soldRec], messages := [],
    wallets := [{ id := 1, seller_id := 1, balance := 7, currency := "INR" }],
    transactions := [], sessions := [baseSession], nextTicketId := 2, nextWalletId := 2 }

/-- State where the PNR is already sold and no wallet row exists yet. -/
def stC2 : DB :=
  { tickets := [baseTicket], sold_tickets := [soldRec], messages := [],
    wallets := [], transactions := [], sessions := [baseSession],
    nextTicketId := 2, nextWalletId := 1 }

/-- State with the listing and its session but nothing sold yet: the input
of a first, successful finalize. -/
def stOK : DB :=
  { tickets := [baseTicket], sold_tickets := [], messages := [],
    wallets := [], transactions := [], sessions := [baseSession],
    nextTicketId := 2, nextWalletId := 1 }

/-- A freshly created listing with an empty message thread. -/
def stFresh : DB :=
  { tickets := [baseTicket], sold_tickets := [], messages := [],
    wallets := [], transactions := [], sessions := [],
    nextTicketId := 2, nextWalletId := 1 }

/-- stFresh after the seller posted a share-confirmation message. -/
def stShared : DB :=
  { stFresh with messages :=
      [{ ticket_id := 1, sender_type := "seller", message_text := "here are the details",
         is_ticket_shared := true }] }

/-- The empty database. -/
def emptyDB : DB :=
  { tickets := [], sold_tickets := [], messages := [], wallets := [],
    transactions := [], sessions := [], nextTicketId := 1, nextWalletId := 1 }

/-- A fully valid upload form for PNR 1234567890. -/
def formA : UploadForm :=
  { title := "T", priceStr := "500", priceVal := some 500, filePresent := true,
    fileName := "t.png", description := "", from_location := "A", to_location := "B",
    travel_date_str := "2026-01-01", travelDateParsed := some 20, train_number := "12345",
    passenger_name := "P", pnr_number := "1234567890" }

/-- formA with a PNR of ten digits followed by one trailing newline: eleven
characters, so not exactly ten digits, yet accepted by the Python pattern. -/
def formNl : UploadForm :=
  { formA with pnr_number := "1234567890\n" }

/-! Helper lemmas about the wallet operations of the finalizer. -/

/-- getOrCreateWallet never touches the sold-tickets relation. -/
theorem gocw_sold (st : DB) (sid : Int) :
    (getOrCreateWallet st sid).1.sold_tickets = st.sold_tickets := by
  unfold getOrCreateWallet; split <;> rfl

/-- getOrCreateWallet never touches the transactions relation. -/
theorem gocw_tx (st : DB) (sid : Int) :
    (getOrCreateWallet st sid).1.transactions = st.transactions := by
  unfold getOrCreateWallet; split <;> rfl

/-- getOrCreateWallet never touches the tickets relation. -/
theorem gocw_tickets (st : DB) (sid : Int) :
    (getOrCreateWallet st sid).1.tickets = st.tickets := by
  unfold getOrCreateWallet; split <;> rfl

/-- getOrCreateWallet never touches the session store. -/
theorem gocw_sessions (st : DB) (sid : Int) :
    (getOrCreateWallet st sid).1.sessions = st.sessions := by
  unfold getOrCreateWallet; split <;> rfl

/-- When the seller wallet exists, getOrCreateWallet returns the state
unchanged together with the id of the first matching wallet row. -/
theorem gocw_found (st : DB) (sid : Int) (w : WalletR)
    (h : st.wallets.find? (fun x => x.seller_id == sid) = some w) :
    getOrCreateWallet st sid = (st, w.id) := by
  unfold getOrCreateWallet; rw [h]

/-- When no seller wallet exists, getOrCreateWallet appends and commits a
fresh zero-balance row. -/
theorem gocw_absent (st : DB) (sid : Int)
    (h : st.wallets.find? (fun x => x.seller_id == sid) = none) :
    getOrCreateWallet st sid =
      ({ st with
          wallets := st.wallets ++ [{ id := st.nextWalletId, seller_id := sid, balance := 0, currency := "INR" }]
          nextWalletId := st.nextWalletId + 1 },
       st.nextWalletId) := by
  unfold getOrCreateWallet; rw [h]

/-- The sold-PNR check reads only the sold-tickets relation, so the wallet
commit does not affect it. -/
theorem soldPnrExists_gocw (st : DB) (sid : Int) (pnr : String) :
    soldPnrExists (getOrCreateWallet st sid).1 pnr = soldPnrExists st pnr := by
  unfold soldPnrExists; rw [gocw_sold]

/-- The separately committed wallet lookup-or-creation changes no wallet
balance: an existing wallet is untouched and a created one starts at zero. -/
theorem walletBalanceD_gocw (st : DB) (sid : Int) (s : Int) :
    walletBalanceD (getOrCreateWallet st sid).1 s = walletBalanceD st s := by
  unfold walletBalanceD
  cases h : st.wallets.find? (fun x => x.seller_id == sid) with
  | some w => rw [gocw_found st sid w h]
  | none =>
    rw [gocw_absent st sid h]
    simp only [List.find?_append]
    cases hss : ((sid : Int) == s) with
    | false =>
      simp [List.find?, hss]
    | true =>
      have hs : sid = s := by exact (beq_iff_eq ..).mp hss
      subst hs
      rw [h]
      simp [List.find?, hss]

/-- Finding the first element satisfying a predicate commutes with mapping a
function that the predicate cannot distinguish. -/
theorem find_map_pres {α : Type} (f : α → α) (p : α → Bool)
    (hp : ∀ x, p (f x) = p x) (l : List α) :
    (l.map f).find? p = (l.find? p).map f := by
  induction l with
  | nil => rfl
  | cons a l ih =>
    cases ha : p a with
    | true => simp [List.find?_cons, hp a, ha]
    | false => simp [List.find?_cons, hp a, ha, ih]

/-- Finding the first wallet of a seller commutes with the balance credit by
wallet id, because the credit preserves seller ids. -/
theorem creditWallets_find_seller (wid : Nat) (p : ℚ) (sid : Int) (l : List WalletR) :
    (creditWallets wid p l).find? (fun x => x.seller_id == sid)
      = (l.find? (fun x => x.seller_id == sid)).map
          (fun x => if x.id == wid then { x with balance := x.balance + p } else x) := by
  unfold creditWallets
  exact find_map_pres _ _
    (fun x => by by_cases hx : (x.id == wid) = true <;> simp [hx]) l

/-- finalizeCore on an already-sold PNR: the settlement commit fails on the
uniqueness constraint, the session rolls back to the separately committed
wallet lookup-or-creation, and the generic finalization error is flashed. -/
theorem finalizeCore_fail (st : DB) (sess : StripeSession) (t : TicketR)
    (h : soldPnrExists st t.pnr_number = true) :
    finalizeCore st sess t = ((getOrCreateWallet st (orOne t.seller_id)).1, Res.finalizationError) := by
  simp [finalizeCore, soldPnrExists_gocw, h]

/-- finalizeCore succeeds exactly when the PNR is not yet sold. -/
theorem finalizeCore_snd_ok_iff (st : DB) (sess : StripeSession) (t : TicketR) :
    (finalizeCore st sess t).2 = Res.ok ↔ soldPnrExists st t.pnr_number = false := by
  cases h : soldPnrExists st t.pnr_number <;>
    simp [finalizeCore, soldPnrExists_gocw, h]

/-- A successful finalizeCore appends exactly the sold-ticket row built from
the resolved ticket. -/
theorem fc_ok_sold (st : DB) (sess : StripeSession) (t : TicketR)
    (h : soldPnrExists st t.pnr_number = false) :
    (finalizeCore st sess t).1.sold_tickets
      = st.sold_tickets ++ [soldFromTicket t sess.payment_intent] := by
  simp [finalizeCore, soldPnrExists_gocw, h, gocw_sold]

/-- A successful finalizeCore appends exactly the credit ledger entry. -/
theorem fc_ok_tx (st : DB) (sess : StripeSession) (t : TicketR)
    (h : soldPnrExists st t.pnr_number = false) :
    (finalizeCore st sess t).1.transactions
      = st.transactions ++ [creditTx t sess (getOrCreateWallet st (orOne t.seller_id)).2] := by
  simp [finalizeCore, soldPnrExists_gocw, h, gocw_tx]

/-- A successful finalizeCore marks the resolved ticket completed. -/
theorem fc_ok_tickets (st : DB) (sess : StripeSession) (t : TicketR)
    (h : soldPnrExists st t.pnr_number = false) :
    (finalizeCore st sess t).1.tickets = completeTicket t.id st.tickets := by
  simp [finalizeCore, soldPnrExists_gocw, h, gocw_tickets]

/-- A successful finalizeCore credits the wallet of the resolved seller by
exactly the listed price, whether the wallet pre-existed or was lazily
created at zero. -/
theorem fc_ok_balance (st : DB) (sess : StripeSession) (t : TicketR)
    (h : soldPnrExists st t.pnr_number = false) :
    walletBalanceD (finalizeCore st sess t).1 (orOne t.seller_id)
      = walletBalanceD st (orOne t.seller_id) + t.price := by
  have hstate : (finalizeCore st sess t).1.wallets
      = creditWallets (getOrCreateWallet st (orOne t.seller_id)).2 t.price
          (getOrCreateWallet st (orOne t.seller_id)).1.wallets := by
    simp [finalizeCore, soldPnrExists_gocw, h]
  unfold walletBalanceD
  rw [hstate, creditWallets_find_seller]
  cases hb : st.wallets.find? (fun x => x.seller_id == orOne t.seller_id) with
  | some w =>
    rw [gocw_found st (orOne t.seller_id) w hb, hb]
    simp
  | none =>
    rw [gocw_absent st (orOne t.seller_id) hb]
    simp only [List.find?_append, hb]
    simp [List.find?]

/-- finalize on a resolvable session whose PNR is already sold: the
settlement fails with the generic finalization error and the state rolls
back to the separately committed wallet lookup-or-creation. -/
theorem finalize_fail (st : DB) (sid' : String) (sess : StripeSession) (t : TicketR)
    (h1 : st.sessions.find? (fun s => s.id == sid') = some sess)
    (h2 : st.tickets.find? (fun u => u.id == sess.ticket_id) = some t)
    (h3 : soldPnrExists st t.pnr_number = true) :
    finalize st sid' = ((getOrCreateWallet st (orOne t.seller_id)).1, Res.finalizationError) := by
  unfold finalize
  rw [h1]
  dsimp only
  rw [h2]
  exact finalizeCore_fail st sess t h3

/-- A successful finalize credits the resolved seller by exactly the listed
price and appends exactly one credit transaction of that amount. -/
theorem finalize_ok_credit (st : DB) (sid' : String) (t : TicketR)
    (hrt : resolvedTicket st sid' = some t)
    (hok : (finalize st sid').2 = Res.ok) :
    walletBalanceD (finalize st sid').1 (orOne t.seller_id)
        = walletBalanceD st (orOne t.seller_id) + t.price
    ∧ ∃ tx : TxR, (finalize st sid').1.transactions = st.transactions ++ [tx]
        ∧ tx.amount = t.price ∧ tx.transaction_type = "credit" := by
  unfold resolvedTicket at hrt
  unfold finalize at hok ⊢
  cases h1 : st.sessions.find? (fun s => s.id == sid') with
  | none => rw [h1] at hrt; cases hrt
  | some sess =>
    rw [h1] at hrt hok
    dsimp only at hrt hok ⊢
    cases h2 : st.tickets.find? (fun u => u.id == sess.ticket_id) with
    | none => rw [h2] at hrt; cases hrt
    | some t0 =>
      rw [h2] at hrt hok
      dsimp only at hrt hok ⊢
      injection hrt with ht
      subst ht
      have hsold := (finalizeCore_snd_ok_iff st sess t0).mp hok
      exact ⟨fc_ok_balance st sess t0 hsold,
        creditTx t0 sess (getOrCreateWallet st (orOne t0.seller_id)).2,
        fc_ok_tx st sess t0 hsold, rfl, rfl⟩

/-- Unpack one successful step of a seller run of finalize calls. -/
theorem okSellerRun_cons (st : DB) (sid : Int) (s : String) (rest : List String)
    (h : okSellerRun st sid (s :: rest) = true) :
    (finalize st s).2 = Res.ok ∧ ∃ t, resolvedTicket st s = some t ∧ orOne t.seller_id = sid
      ∧ okSellerRun (finalize st s).1 sid rest = true := by
  cases hf : (finalize st s).2 <;> cases hr : resolvedTicket st s <;>
    simp_all [okSellerRun]

/-- Along any all-successful run of finalize calls for one seller, the
wallet balance grows by exactly the sum of the listed prices of the tickets
resolved along the run. -/
theorem seqBalance (sid : Int) : ∀ (l : List String) (st : DB),
    okSellerRun st sid l = true →
    walletBalanceD (finalizeSeq st l) sid = walletBalanceD st sid + (runPrices st l).sum := by
  intro l
  induction l with
  | nil =>
    intro st _
    simp [finalizeSeq, runPrices]
  | cons s rest ih =>
    intro st h
    obtain ⟨hok, t, hrt, hsid, hrest⟩ := okSellerRun_cons st sid s rest h
    have hstep := (finalize_ok_credit st s t hrt hok).1
    rw [hsid] at hstep
    have hrun : runPrices st (s :: rest) = t.price :: runPrices (finalize st s).1 rest := by
      simp [runPrices, hrt]
    have hseq : finalizeSeq st (s :: rest) = finalizeSeq (finalize st s).1 rest := rfl
    rw [hseq, ih (finalize st s).1 hrest, hrun, hstep, List.sum_cons]
    ring

/-- C1 (corrected).  For every PNR, a SoldTicket row is created at most
once: a second finalize attempt for an already-sold PNR fails and leaves
every wallet balance and the sold-tickets relation unchanged, so there is
no double credit.  However the failure is surfaced as the generic
finalization error (the commit hits the uniqueness constraint and the
generic handler flashes the contact-support message), not as the already
sold Conflict rejection that the claim names. -/
theorem C1_thm (st : DB) (sid' : String) (sess : StripeSession) (t : TicketR)
    (h1 : st.sessions.find? (fun s => s.id == sid') = some sess)
    (h2 : st.tickets.find? (fun u => u.id == sess.ticket_id) = some t)
    (h3 : soldPnrExists st t.pnr_number = true) :
    (finalize st sid').2 = Res.finalizationError
    ∧ (finalize st sid').1.sold_tickets = st.sold_tickets
    ∧ ∀ s : Int, walletBalanceD (finalize st sid').1 s = walletBalanceD st s := by
  rw [finalize_fail st sid' sess t h1 h2 h3]
  exact ⟨rfl, gocw_sold st (orOne t.seller_id),
    fun s => walletBalanceD_gocw st (orOne t.seller_id) s⟩

/-- C1 counterexample.  In the state stC1 the PNR of the resolved ticket is
already sold; the second finalize attempt fails with the generic
finalization error, which is not the Conflict outcome the claim states, and
the state is completely unchanged. -/
theorem C1_cex :
    soldPnrExists stC1 "1234567890" = true
    ∧ finalize stC1 "cs_0" = (stC1, Res.finalizationError)
    ∧ Res.finalizationError ≠ Res.conflict := by
  refine ⟨by decide, by decide, by decide⟩

/-- C1 witness: the amended theorem applied to the concrete state stC1. -/
theorem C1_wit :
    (finalize stC1 "cs_0").2 = Res.finalizationError
    ∧ (finalize stC1 "cs_0").1.sold_tickets = stC1.sold_tickets
    ∧ ∀ s : Int, walletBalanceD (finalize stC1 "cs_0").1 s = walletBalanceD stC1 s :=
  C1_thm stC1 "cs_0" baseSession baseTicket (by decide) (by decide) (by decide)

/-- C2 (corrected).  When the settlement commit of finalize fails, the
wallet credit, the ledger append, the SoldTicket insert and the status
update all roll back together and the caller sees the finalization error;
but the wallet lookup-or-creation is committed separately beforehand, so
the persisted state is exactly the one getOrCreateWallet left behind, and a
newly created zero-balance wallet row survives the rollback. -/
theorem C2_thm (st : DB) (sid' : String) (sess : StripeSession) (t : TicketR)
    (h1 : st.sessions.find? (fun s => s.id == sid') = some sess)
    (h2 : st.tickets.find? (fun u => u.id == sess.ticket_id) = some t)
    (h3 : soldPnrExists st t.pnr_number = true) :
    (finalize st sid').2 = Res.finalizationError
    ∧ (finalize st sid').1 = (getOrCreateWallet st (orOne t.seller_id)).1
    ∧ (finalize st sid').1.sold_tickets = st.sold_tickets
    ∧ (finalize st sid').1.transactions = st.transactions
    ∧ (finalize st sid').1.tickets = st.tickets := by
  rw [finalize_fail st sid' sess t h1 h2 h3]
  exact ⟨rfl, rfl, gocw_sold st (orOne t.seller_id), gocw_tx st (orOne t.seller_id),
    gocw_tickets st (orOne t.seller_id)⟩

/-- C2 counterexample.  In the state stC2 the PNR is already sold and the
seller has no wallet row; the finalize attempt fails, yet the freshly
created wallet row persists: the wallet lookup-or-creation did not commit
together with the rest and was not rolled back. -/
theorem C2_cex :
    (finalize stC2 "cs_0").2 = Res.finalizationError
    ∧ (finalize stC2 "cs_0").1.wallets
        = [{ id := 1, seller_id := 1, balance := 0, currency := "INR" }]
    ∧ (finalize stC2 "cs_0").1.wallets ≠ stC2.wallets := by
  refine ⟨by decide, by decide, by decide⟩

/-- C2 witness: the amended theorem applied to the concrete state stC2. -/
theorem C2_wit :
    (finalize stC2 "cs_0").2 = Res.finalizationError
    ∧ (finalize stC2 "cs_0").1 = (getOrCreateWallet stC2 (orOne baseTicket.seller_id)).1
    ∧ (finalize stC2 "cs_0").1.sold_tickets = stC2.sold_tickets
    ∧ (finalize stC2 "cs_0").1.transactions = stC2.transactions
    ∧ (finalize stC2 "cs_0").1.tickets = stC2.tickets :=
  C2_thm stC2 "cs_0" baseSession baseTicket (by decide) (by decide) (by decide)

/-- C3 (confirmed).  Every successful finalize credits the wallet of the
resolved seller by exactly the listed price of the resolved ticket and
appends exactly one credit transaction of that same amount; consequently,
along any all-successful run of finalize calls for one seller the balance
grows by the sum of the listed prices, and from a zero starting balance it
equals that sum. -/
theorem C3_thm :
    (∀ (st : DB) (sid' : String) (t : TicketR),
      resolvedTicket st sid' = some t → (finalize st sid').2 = Res.ok →
        walletBalanceD (finalize st sid').1 (orOne t.seller_id)
            = walletBalanceD st (orOne t.seller_id) + t.price
        ∧ ∃ tx : TxR, (finalize st sid').1.transactions = st.transactions ++ [tx]
            ∧ tx.amount = t.price ∧ tx.transaction_type = "credit")
    ∧ (∀ (sid : Int) (l : List String) (st : DB),
        okSellerRun st sid l = true → walletBalanceD st sid = 0 →
        walletBalanceD (finalizeSeq st l) sid = (runPrices st l).sum) := by
  refine ⟨finalize_ok_credit, fun sid l st h h0 => ?_⟩
  rw [seqBalance sid l st h, h0, zero_add]

/-- C3 witness: a single successful finalize of the 500-priced listing in
stOK credits the placeholder seller wallet from zero to 500, the sum of the
one listed price. -/
theorem C3_wit :
    walletBalanceD (finalizeSeq stOK ["cs_0"]) 1 = ([(500 : ℚ)]).sum := by
  have h := C3_thm.2 1 ["cs_0"] stOK (by decide) (by decide)
  have hp : runPrices stOK ["cs_0"] = [(500 : ℚ)] := by decide
  rw [h, hp]

/-- The listing of baseTicket with the fractional price 100.01. -/
def ticketC6 : TicketR :=
  { baseTicket with price := (10001 : ℚ)/100 }

/-- stFresh with the 100.01-priced listing. -/
def stC6 : DB :=
  { stFresh with tickets := [ticketC6] }

/-- A successful initiate_payment (ticket present, PNR not sold, email
given): the checkout session is created and the ticket row records the
buyer email, the session reference and the pending status. -/
theorem initiate_ok_spec (st : DB) (tid : Nat) (email : String) (t : TicketR)
    (h : st.tickets.find? (fun u => u.id == tid) = some t)
    (hsold : soldPnrExists st t.pnr_number = false) (hemail : email ≠ "") :
    initiate_payment st tid email =
      ({ st with
          sessions := st.sessions ++ [newSession st t email]
          tickets := st.tickets.map (fun u =>
            if u.id == tid then
              { u with
                  buyer_email := some email
                  stripe_checkout_id := some (newSession st t email).id
                  payment_status := some PaymentStatus.pending }
            else u) }, Res.ok) := by
  have hpp : payment_page st tid = Res.ok := by
    simp [payment_page, h, hsold]
  simp [initiate_payment, hpp, process_payment, h, hemail]

/-- C4 (confirmed).  initiate_payment fails with NotFound for an absent
ticket; when a SoldTicket already exists for the PNR of the ticket it fails
with the already-sold Conflict, creating no session and mutating nothing;
otherwise it creates the checkout session and records the buyer email, the
pending external payment reference and the pending status on the ticket. -/
theorem C4_thm (st : DB) (tid : Nat) (email : String) :
    (st.tickets.find? (fun u => u.id == tid) = none →
      initiate_payment st tid email = (st, Res.notFound))
    ∧ (∀ t, st.tickets.find? (fun u => u.id == tid) = some t →
        soldPnrExists st t.pnr_number = true →
        initiate_payment st tid email = (st, Res.conflict))
    ∧ (∀ t, st.tickets.find? (fun u => u.id == tid) = some t →
        soldPnrExists st t.pnr_number = false → email ≠ "" →
        (initiate_payment st tid email).2 = Res.ok
        ∧ (initiate_payment st tid email).1.sessions = st.sessions ++ [newSession st t email]
        ∧ (initiate_payment st tid email).1.tickets.find? (fun u => u.id == tid)
            = some { t with
                      buyer_email := some email
                      stripe_checkout_id := some (newSession st t email).id
                      payment_status := some PaymentStatus.pending }) := by
  refine ⟨fun h => ?_, fun t h hsold => ?_, fun t h hsold hemail => ?_⟩
  · have hpp : payment_page st tid = Res.notFound := by simp [payment_page, h]
    unfold initiate_payment
    rw [hpp]
  · have hpp : payment_page st tid = Res.conflict := by simp [payment_page, h, hsold]
    unfold initiate_payment
    rw [hpp]
  · rw [initiate_ok_spec st tid email t h hsold hemail]
    refine ⟨rfl, rfl, ?_⟩
    rw [find_map_pres _ _ (fun x => by by_cases hx : (x.id == tid) = true <;> simp [hx]) st.tickets]
    rw [h]
    have ht := List.find?_some h
    simp [ht]
    intro hne
    exact absurd (by simpa using ht) hne

/-- C4 witness: the theorem applied at the concrete states stC1 (PNR
already sold, Conflict with no mutation) and stFresh (successful payment
initiation with the session created). -/
theorem C4_wit :
    initiate_payment stC1 1 "b@x.com" = (stC1, Res.conflict)
    ∧ (initiate_payment stFresh 1 "b@x.com").2 = Res.ok
    ∧ (initiate_payment stFresh 1 "b@x.com").1.sessions
        = stFresh.sessions ++ [newSession stFresh baseTicket "b@x.com"] :=
  ⟨(C4_thm stC1 1 "b@x.com").2.1 baseTicket rfl rfl,
   ((C4_thm stFresh 1 "b@x.com").2.2 baseTicket rfl rfl (by decide)).1,
   ((C4_thm stFresh 1 "b@x.com").2.2 baseTicket rfl rfl (by decide)).2.1⟩

/-- C6 (corrected).  initiate_payment creates one checkout session whose
amount is the commission-inclusive total in paise truncated to an integer,
sessionAmount, which lies within one paise below the exact value 110 times
the listed price and equals it whenever that value is integral; for the
listed price 500.00 the amount is exactly 55000 paise, that is 550.00. -/
theorem C6_thm :
    (∀ (st : DB) (tid : Nat) (email : String) (t : TicketR),
      st.tickets.find? (fun u => u.id == tid) = some t →
      soldPnrExists st t.pnr_number = false → email ≠ "" →
      (initiate_payment st tid email).1.sessions = st.sessions ++ [newSession st t email]
      ∧ (newSession st t email).unit_amount = sessionAmount t.price)
    ∧ (∀ price : ℚ, 0 < price →
        ((sessionAmount price : ℚ) ≤ price * 110
          ∧ price * 110 - 1 < (sessionAmount price : ℚ)))
    ∧ sessionAmount 500 = 55000 := by
  refine ⟨fun st tid email t h hsold hemail => ?_, fun price hp => ?_, ?_⟩
  · rw [initiate_ok_spec st tid email t h hsold hemail]
    exact ⟨rfl, rfl⟩
  · have h0 : (0 : ℚ) ≤ price * 110 := by positivity
    unfold sessionAmount pyInt
    rw [if_pos h0]
    exact ⟨Int.floor_le _, Int.sub_one_lt_floor _⟩
  · have h500 : (500 : ℚ) * 110 = ((55000 : Int) : ℚ) := by norm_num
    unfold sessionAmount pyInt
    rw [h500, if_pos (by norm_num), Int.floor_intCast]

/-- C6 counterexample.  For the listed price 100.01 the created session
charges 11001 paise, but 1.1 times the listed price is 11001.1 paise: the
session amount is not equal to 1.1 times the listed price expressed in the
smallest currency unit, because the Python int conversion truncates. -/
theorem C6_cex :
    (initiate_payment stC6 1 "b@x.com").1.sessions.map (fun s => s.unit_amount) = [11001]
    ∧ ¬(((11001 : ℚ)) = ((10001 : ℚ)/100) * 110) := by
  constructor
  · have hsa : sessionAmount ((10001 : ℚ)/100) = 11001 := by
      have hq : ((10001 : ℚ)/100) * 110 = 110011/10 := by norm_num
      have hfl : ⌊((110011 : ℚ)/10)⌋ = 11001 := by
        rw [Int.floor_eq_iff]
        norm_num
      unfold sessionAmount pyInt
      rw [hq, if_pos (by norm_num), hfl]
    rw [initiate_ok_spec stC6 1 "b@x.com" ticketC6 rfl rfl (by decide)]
    show [sessionAmount ticketC6.price] = [11001]
    rw [show ticketC6.price = (10001 : ℚ)/100 from rfl, hsa]
  · norm_num

/-- C6 witness: the amended theorem applied at stFresh and at the listed
price 500. -/
theorem C6_wit :
    (initiate_payment stFresh 1 "b@x.com").1.sessions
        = stFresh.sessions ++ [newSession stFresh baseTicket "b@x.com"]
    ∧ ((sessionAmount 500 : ℚ) ≤ (500 : ℚ) * 110
        ∧ (500 : ℚ) * 110 - 1 < (sessionAmount 500 : ℚ)) :=
  ⟨(C6_thm.1 stFresh 1 "b@x.com" baseTicket rfl rfl (by decide)).1,
   C6_thm.2.1 500 (by norm_num)⟩

/-- A PNR that validate_pnr accepts passes the pattern check and is not yet
sold. -/
theorem validate_pnr_true (st : DB) (pnr : String)
    (h : (validate_pnr st pnr).1 = true) :
    pnrPatternMatch pnr = true ∧ soldPnrExists st pnr = false := by
  unfold validate_pnr at h
  repeat' split at h
  all_goals simp_all

/-- Every upload either flashes a validation error and leaves the database
unchanged, or succeeds with every validation of the handler passed: no
branch of the handler both persists a row and fails. -/
theorem upload_spec (st : DB) (f : UploadForm) :
    (∃ msg, upload_ticket st f = (st, Res.validationError msg))
    ∨ ((upload_ticket st f).2 = Res.ok
        ∧ pyStrip f.title ≠ "" ∧ pyStrip f.priceStr ≠ "" ∧ f.priceVal ≠ none
        ∧ (∀ p, f.priceVal = some p → ¬p ≤ 0)
        ∧ pnrPatternMatch f.pnr_number = true ∧ soldPnrExists st f.pnr_number = false
        ∧ f.from_location ≠ "" ∧ f.to_location ≠ "" ∧ f.travel_date_str ≠ ""
        ∧ f.train_number ≠ "" ∧ f.passenger_name ≠ "" ∧ f.pnr_number ≠ ""
        ∧ f.travelDateParsed ≠ none) := by
  unfold upload_ticket
  by_cases h1 : pyStrip f.title = ""
  · rw [if_pos h1]; exact Or.inl ⟨_, rfl⟩
  rw [if_neg h1]
  by_cases h2 : pyStrip f.priceStr = ""
  · rw [if_pos h2]; exact Or.inl ⟨_, rfl⟩
  rw [if_neg h2]
  cases hpv : f.priceVal with
  | none => exact Or.inl ⟨_, rfl⟩
  | some price =>
  dsimp only
  by_cases h3 : price ≤ 0
  · rw [if_pos h3]; exact Or.inl ⟨_, rfl⟩
  rw [if_neg h3]
  by_cases h4 : (!f.filePresent) = true
  · rw [if_pos h4]; exact Or.inl ⟨_, rfl⟩
  rw [if_neg h4]
  by_cases h5 : f.fileName = ""
  · rw [if_pos h5]; exact Or.inl ⟨_, rfl⟩
  rw [if_neg h5]
  by_cases h6 : f.from_location = ""
  · rw [if_pos h6]; exact Or.inl ⟨_, rfl⟩
  rw [if_neg h6]
  by_cases h7 : f.to_location = ""
  · rw [if_pos h7]; exact Or.inl ⟨_, rfl⟩
  rw [if_neg h7]
  by_cases h8 : f.travel_date_str = ""
  · rw [if_pos h8]; exact Or.inl ⟨_, rfl⟩
  rw [if_neg h8]
  by_cases h9 : f.train_number = ""
  · rw [if_pos h9]; exact Or.inl ⟨_, rfl⟩
  rw [if_neg h9]
  by_cases h10 : f.passenger_name = ""
  · rw [if_pos h10]; exact Or.inl ⟨_, rfl⟩
  rw [if_neg h10]
  by_cases h11 : f.pnr_number = ""
  · rw [if_pos h11]; exact Or.inl ⟨_, rfl⟩
  rw [if_neg h11]
  by_cases h12 : (!(validate_pnr st f.pnr_number).1) = true
  · rw [if_pos h12]; exact Or.inl ⟨_, rfl⟩
  rw [if_neg h12]
  cases htd : f.travelDateParsed with
  | none => exact Or.inl ⟨_, rfl⟩
  | some d =>
  dsimp only
  by_cases h13 : allowed_file f.fileName = true
  · rw [if_pos h13]
    have hv : (validate_pnr st f.pnr_number).1 = true := by simpa using h12
    refine Or.inr ⟨rfl, h1, h2, by simp [hpv], ?_,
      (validate_pnr_true st f.pnr_number hv).1, (validate_pnr_true st f.pnr_number hv).2,
      h6, h7, h8, h9, h10, h11, by simp [htd]⟩
    intro p hp
    injection hp with hh
    rw [← hh]
    exact h3
  · rw [if_neg h13]; exact Or.inl ⟨_, rfl⟩

/-- C5 (corrected).  Ticket creation rejects the upload with a validation
error and persists nothing whenever the price does not parse or is not
positive, the PNR fails the pattern check, the PNR is already sold, any
required field is blank, or the travel date does not parse.  The pattern
check is the Python match of ten digits anchored with a dollar sign, which
also accepts ten digits followed by one trailing newline, so it is slightly
weaker than the not exactly ten digits condition of the claim. -/
theorem C5_thm (st : DB) (f : UploadForm)
    (h : pyStrip f.title = "" ∨ pyStrip f.priceStr = "" ∨ f.priceVal = none
      ∨ (∃ p, f.priceVal = some p ∧ p ≤ 0)
      ∨ pnrPatternMatch f.pnr_number = false ∨ soldPnrExists st f.pnr_number = true
      ∨ f.from_location = "" ∨ f.to_location = "" ∨ f.travel_date_str = ""
      ∨ f.train_number = "" ∨ f.passenger_name = "" ∨ f.pnr_number = ""
      ∨ f.travelDateParsed = none) :
    ∃ msg, upload_ticket st f = (st, Res.validationError msg) := by
  rcases upload_spec st f with hbad | ⟨_, c1, c2, c3, c4, c5, c6, c7, c8, c9, c10, c11, c12, c13⟩
  · exact hbad
  · exfalso
    rcases h with h | h | h | ⟨p, hp, hp0⟩ | h | h | h | h | h | h | h | h | h
    · exact c1 h
    · exact c2 h
    · exact c3 h
    · exact c4 p hp hp0
    · rw [c5] at h; cases h
    · rw [c6] at h; cases h
    · exact c7 h
    · exact c8 h
    · exact c9 h
    · exact c10 h
    · exact c11 h
    · exact c12 h
    · exact c13 h

/-- C5 counterexample.  The form formNl carries the eleven-character PNR of
ten digits followed by a newline, which is not exactly ten digits; yet the
upload succeeds and persists a ticket row, because the Python dollar anchor
of the pattern also matches just before a final newline. -/
theorem C5_cex :
    (upload_ticket emptyDB formNl).2 = Res.ok
    ∧ (upload_ticket emptyDB formNl).1.tickets.length = 1
    ∧ ¬formNl.pnr_number.length = 10
    ∧ (upload_ticket emptyDB formNl).1.tickets.map (fun t => t.pnr_number)
        = ["1234567890\n"] := by
  refine ⟨by decide, by decide, by decide, by decide⟩

/-- C5 witness: the amended theorem applied to the three-digit PNR 123 of
the scenario of the spec: the upload is rejected with a validation error
and the database is unchanged, so no row is persisted. -/
theorem C5_wit :
    ∃ msg, upload_ticket emptyDB { formA with pnr_number := "123" }
      = (emptyDB, Res.validationError msg) :=
  C5_thm emptyDB { formA with pnr_number := "123" }
    (Or.inr (Or.inr (Or.inr (Or.inr (Or.inl (by decide))))))

/-- C7 (confirmed).  The expiry sweep is monotonic and idempotent: a swept
ticket is expired exactly when it already was or its travel date lies
before today, an expired ticket never reverts, a non-expired ticket with a
non-past travel date is untouched, re-running the sweep with the same day
changes nothing, and after a sweep no ticket matches the sweep predicate. -/
theorem C7_thm (today : Int) (st : DB) :
    check_expired_tickets today (check_expired_tickets today st)
        = check_expired_tickets today st
    ∧ (check_expired_tickets today st).tickets = st.tickets.map (expireOne today)
    ∧ (∀ t : TicketR,
        (expireOne today t).is_expired = (t.is_expired || decide (t.travel_date < today)))
    ∧ (∀ t : TicketR, t.is_expired = true → (expireOne today t).is_expired = true)
    ∧ (∀ t : TicketR, t.is_expired = false → ¬t.travel_date < today → expireOne today t = t)
    ∧ (check_expired_tickets today st).tickets.filter
        (fun t => decide (t.travel_date < today) && !t.is_expired) = [] := by
  have hval : ∀ t : TicketR,
      (expireOne today t).is_expired = (t.is_expired || decide (t.travel_date < today)) := by
    intro t
    unfold expireOne
    split <;> rename_i hc <;> simp_all
  have hidem : ∀ t : TicketR, expireOne today (expireOne today t) = expireOne today t := by
    intro t
    unfold expireOne
    split <;> rename_i hc <;> simp_all
  refine ⟨?_, rfl, hval, ?_, ?_, ?_⟩
  · have hcomp : expireOne today ∘ expireOne today = expireOne today := funext hidem
    unfold check_expired_tickets
    dsimp only
    rw [List.map_map, hcomp]
  · intro t h
    rw [hval t, h, Bool.true_or]
  · intro t h1 h2
    unfold expireOne
    simp [h1, h2]
  · rw [List.filter_eq_nil_iff]
    intro t ht
    unfold check_expired_tickets at ht
    simp only [List.mem_map] at ht
    obtain ⟨t0, _, rfl⟩ := ht
    rw [Bool.not_eq_true]
    cases hpast : decide (t0.travel_date < today) with
    | false =>
      have : (expireOne today t0).travel_date = t0.travel_date := by
        unfold expireOne; split <;> rfl
      simp [this, hpast]
    | true =>
      rw [hval t0, hpast]
      have : (expireOne today t0).travel_date = t0.travel_date := by
        unfold expireOne; split <;> rfl
      simp [this, hpast]

/-- C7 witness: at day 20 the sweep of stFresh is idempotent, and a ticket
marked expired stays expired after another sweep step. -/
theorem C7_wit :
    check_expired_tickets 20 (check_expired_tickets 20 stFresh)
        = check_expired_tickets 20 stFresh
    ∧ (expireOne 20 { baseTicket with is_expired := true }).is_expired = true :=
  ⟨(C7_thm 20 stFresh).1,
   (C7_thm 20 stFresh).2.2.2.1 { baseTicket with is_expired := true } (by decide)⟩

/-- C8 (confirmed).  confirm_release on an existing ticket fails with
PreconditionFailed and inserts nothing unless a seller message with the
shared flag exists; with one it appends exactly the release-confirmation
message and redirects to the payment page, unlocking payment initiation. -/
theorem C8_thm (st : DB) (tid : Nat) (h : ticketExists st tid = true) :
    (sharedExists st tid = false → release_ticket st tid = (st, Res.preconditionFailed))
    ∧ (sharedExists st tid = true →
        release_ticket st tid
          = ({ st with messages := st.messages ++ [confirmMsg tid] }, Res.paymentRedirect)) := by
  constructor
  · intro hs
    unfold release_ticket
    rw [if_pos h, if_neg (by simp [hs])]
  · intro hs
    unfold release_ticket
    rw [if_pos h, if_pos hs]

/-- C8 witness: the theorem applied at stFresh (no share yet, rejected) and
at stShared (share present, confirmation message appended). -/
theorem C8_wit :
    release_ticket stFresh 1 = (stFresh, Res.preconditionFailed)
    ∧ release_ticket stShared 1
        = ({ stShared with messages := stShared.messages ++ [confirmMsg 1] }, Res.paymentRedirect) :=
  ⟨(C8_thm stFresh 1 (by decide)).1 (by decide),
   (C8_thm stShared 1 (by decide)).2 (by decide)⟩

/-- C9 (corrected).  request_release does not require a prior seller
share-confirmation: on an existing ticket it is accepted and inserts the
release-request message whenever no buyer release-request exists yet, and
it is rejected with a duplicate warning, inserting nothing, exactly when
one already exists. -/
theorem C9_thm (st : DB) (tid : Nat) (h : ticketExists st tid = true) :
    (releaseReqExists st tid = false →
      request_release st tid
        = ({ st with messages := st.messages ++ [releaseReqMsg tid] }, Res.ok))
    ∧ (releaseReqExists st tid = true →
        request_release st tid
          = (st, Res.warning "You have already requested this ticket to be released. Please wait for the seller to confirm.")) := by
  constructor
  · intro hr
    unfold request_release
    rw [if_pos h, if_neg (by simp [hr])]
  · intro hr
    unfold request_release
    rw [if_pos h, if_pos hr]

/-- C9 counterexample.  On the freshly created ticket of stFresh, with an
empty message thread and in particular no seller share-confirmation,
request_release is accepted and inserts the release-request message: it is
not rejected with PreconditionFailed as the claim states. -/
theorem C9_cex :
    request_release stFresh 1
        = ({ stFresh with messages := [releaseReqMsg 1] }, Res.ok)
    ∧ (request_release stFresh 1).2 ≠ Res.preconditionFailed
    ∧ stFresh.messages = [] := by
  refine ⟨by decide, by decide, rfl⟩

/-- C9 witness: the amended theorem applied at stFresh, and at stFresh
after a first request where the duplicate is rejected with a warning. -/
theorem C9_wit :
    request_release stFresh 1
        = ({ stFresh with messages := stFresh.messages ++ [releaseReqMsg 1] }, Res.ok)
    ∧ request_release { stFresh with messages := [releaseReqMsg 1] } 1
        = ({ stFresh with messages := [releaseReqMsg 1] },
           Res.warning "You have already requested this ticket to be released. Please wait for the seller to confirm.") :=
  ⟨(C9_thm stFresh 1 (by decide)).1 (by decide),
   (C9_thm { stFresh with messages := [releaseReqMsg 1] } 1 (by decide)).2 (by decide)⟩

/-- C10 (confirmed).  Active listings are not deduplicated by PNR: ticket
creation only rejects a PNR that already appears in the sold tickets, so
uploading formA twice into the empty database succeeds both times and
leaves two coexisting non-expired ticket rows with the same ten-digit PNR
1234567890. -/
theorem C10_thm :
    (upload_ticket emptyDB formA).2 = Res.ok
    ∧ (upload_ticket (upload_ticket emptyDB formA).1 formA).2 = Res.ok
    ∧ (upload_ticket (upload_ticket emptyDB formA).1 formA).1.tickets.map
        (fun t => (t.pnr_number, t.is_expired))
        = [("1234567890", false), ("1234567890", false)]
    ∧ pnrPatternMatch "1234567890" = true := by
  refine ⟨by decide, by decide, by decide, by decide⟩

end RailwayTicket
